import Mathlib

set_option maxRecDepth 8000

/-!
Verification of the unit-conversion core of the repository (file
`unit_converter.py`): SI normalization of (value, unit, quantity-type)
triples, affine temperature handling, gauge-pressure offsets, equipment
size-limit lookups and the CEPCI escalation-index lookup.

Modelling conventions: Python floats are modelled as exact rationals
(`ℚ`); Python dicts keyed by strings become Lean functions
`String → Option _` written as literal match/if chains in the source
dict order; functions that can `raise` return `Except String _`; the
`try/except` re-raise wrappers that prefix error messages are modelled
by the `wrap` locals below.  Decimal literals are kept exactly as they
appear in the source (`OfScientific` on `ℚ` is exact).
-/

/-- Entry of the conversion-factor registry: either a multiplicative
scalar factor or a sentinel string marking a special-case conversion
(temperature, gauge pressure), mirroring the float-or-string values of
`_get_unit_conversion_factors`. -/
inductive Factor where
  | num (q : ℚ)
  | special (tag : String)
deriving DecidableEq

/-- SI base unit per physical quantity type (`_get_si_base_units`). -/
def si_base_units (unit_type : String) : Option String :=
  match unit_type with
  | "AREA" => some "sqm"
  | "COMPOSITION" => some "mol-fr"
  | "DENSITY" => some "kg/cum"
  | "ENERGY" => some "J"
  | "FLOW" => some "kg/sec"
  | "MASS-FLOW" => some "kg/sec"
  | "MOLE-FLOW" => some "kmol/sec"
  | "VOLUME-FLOW" => some "cum/sec"
  | "MASS" => some "kg"
  | "POWER" => some "Watt"
  | "PRESSURE" => some "N/sqm"
  | "TEMPERATURE" => some "K"
  | "TIME" => some "sec"
  | "VELOCITY" => some "m/sec"
  | "VOLUME" => some "cum"
  | "MOLE-DENSITY" => some "kmol/cum"
  | "MASS-DENSITY" => some "kg/cum"
  | "MOLE-VOLUME" => some "cum/kmol"
  | "ELEC-POWER" => some "Watt"
  | "UA" => some "J/sec-K"
  | "WORK" => some "J"
  | "HEAT" => some "J"
  | _ => none

/-- Conversion-factor registry (`_get_unit_conversion_factors`), in the
source dict order; scalar values are the exact decimal literals of the
source, string values become `Factor.special`. -/
def conversion_factors_entries : List (String × Factor) :=
[
  ("sqm", Factor.num 1.0),
  ("sqft", Factor.num 0.092903),
  ("sqcm", Factor.num 0.0001),
  ("sqin", Factor.num 0.00064516),
  ("sqmile", Factor.num 2589988.11),
  ("sqmm", Factor.num 0.000001),
  ("kg", Factor.num 1.0),
  ("lb", Factor.num 0.453592),
  ("gm", Factor.num 0.001),
  ("ton", Factor.num 1000.0),
  ("Mlb", Factor.num 453592.0),
  ("tonne", Factor.num 1000.0),
  ("L-ton", Factor.num 1016.05),
  ("MMlb", Factor.num 453592000.0),
  ("sec", Factor.num 1.0),
  ("hr", Factor.num 3600.0),
  ("day", Factor.num 86400.0),
  ("min", Factor.num 60.0),
  ("year", Factor.num 31536000.0),
  ("month", Factor.num 2628000.0),
  ("week", Factor.num 604800.0),
  ("nsec", Factor.num 1e-9),
  ("oper-year", Factor.num 28382400.0),
  ("K", Factor.num 1.0),
  ("C", Factor.special "C_to_K"),
  ("F", Factor.special "F_to_K"),
  ("R", Factor.num 0.555556),
  ("N/sqm", Factor.num 1.0),
  ("PsIa", Factor.num 6894.76),
  ("atm", Factor.num 101325.0),
  ("lbf/sqft", Factor.num 47.8803),
  ("bar", Factor.num 100000.0),
  ("torr", Factor.num 133.322),
  ("in-water", Factor.num 249.089),
  ("kg/sqcm", Factor.num 98066.5),
  ("mmHg", Factor.num 133.322),
  ("kPa", Factor.num 1000.0),
  ("mm-water", Factor.num 9.80665),
  ("mbar", Factor.num 100.0),
  ("psig", Factor.special "psig_to_Pa"),
  ("atmg", Factor.special "atmg_to_Pa"),
  ("barg", Factor.special "barg_to_Pa"),
  ("pa", Factor.num 1.0),
  ("MiPa", Factor.num 1000000.0),
  ("Pag", Factor.special "Pag_to_Pa"),
  ("kPag", Factor.special "kPag_to_Pa"),
  ("MPag", Factor.special "MPag_to_Pa"),
  ("mbarg", Factor.special "mbarg_to_Pa"),
  ("psi", Factor.num 6894.76),
  ("bara", Factor.num 100000.0),
  ("J", Factor.num 1.0),
  ("Btu", Factor.num 1055.06),
  ("cal", Factor.num 4.184),
  ("kcal", Factor.num 4184.0),
  ("kWhr", Factor.num 3600000.0),
  ("ft-lbf", Factor.num 1.35582),
  ("GJ", Factor.num 1000000000.0),
  ("kJ", Factor.num 1000.0),
  ("N-m", Factor.num 1.0),
  ("MJ", Factor.num 1000000.0),
  ("Mcal", Factor.num 4184000.0),
  ("Gcal", Factor.num 4184000000.0),
  ("Mbtu", Factor.num 1055060000.0),
  ("MMBtu", Factor.num 1055060000000.0),
  ("hp-hr", Factor.num 2684520.0),
  ("MMkcal", Factor.num 4184000000000.0),
  ("Mmkcal", Factor.num 4184000000000000.0),
  ("Pcu", Factor.num 1055.06),
  ("MMPcu", Factor.num 1055060000000.0),
  ("kW-hr", Factor.num 3600000.0),
  ("Watt", Factor.num 1.0),
  ("W", Factor.num 1.0),
  ("hp", Factor.num 745.7),
  ("kW", Factor.num 1000.0),
  ("Btu/hr", Factor.num 0.293071),
  ("cal/sec", Factor.num 4.184),
  ("ft-lbf/sec", Factor.num 1.35582),
  ("MIW", Factor.num 1000000.0),
  ("GW", Factor.num 1000000000.0),
  ("MJ/hr", Factor.num 277.778),
  ("kcal/hr", Factor.num 1.16222),
  ("Gcal/hr", Factor.num 1162220.0),
  ("MMBtu/hr", Factor.num 293071.0),
  ("MBtu/hr", Factor.num 293.071),
  ("Mhp", Factor.num 745700000.0),
  ("kg/sec", Factor.num 1.0),
  ("lb/hr", Factor.num 0.000125998),
  ("kg/hr", Factor.num 0.000277778),
  ("lb/sec", Factor.num 0.453592),
  ("Mlb/hr", Factor.num 125.998),
  ("tons/day", Factor.num 0.0115741),
  ("Mcfh", Factor.num 0.00786579),
  ("tonne/hr", Factor.num 0.277778),
  ("lb/day", Factor.num 5.24991e-06),
  ("kg/day", Factor.num 1.15741e-05),
  ("tons/hr", Factor.num 0.277778),
  ("kg/min", Factor.num 0.0166667),
  ("kg/year", Factor.num 3.17098e-08),
  ("gm/min", Factor.num 1.66667e-05),
  ("gm/hr", Factor.num 2.77778e-07),
  ("gm/day", Factor.num 1.15741e-08),
  ("Mgm/hr", Factor.num 0.277778),
  ("Ggm/hr", Factor.num 277.778),
  ("Mgm/day", Factor.num 0.0115741),
  ("Ggm/day", Factor.num 11.5741),
  ("lb/min", Factor.num 0.00755987),
  ("MMlb/hr", Factor.num 125998.0),
  ("Mlb/day", Factor.num 5.24991),
  ("MMlb/day", Factor.num 5249.91),
  ("lb/year", Factor.num 1.43833e-08),
  ("Mlb/year", Factor.num 1.43833e-05),
  ("MMIb/year", Factor.num 0.0143833),
  ("tons/min", Factor.num 16.6667),
  ("Mtons/year", Factor.num 31.7098),
  ("MMtons/year", Factor.num 31709.8),
  ("L-tons/min", Factor.num 16.9333),
  ("L-tons/hr", Factor.num 0.282222),
  ("L-tons/day", Factor.num 0.0117593),
  ("ML-tons/year", Factor.num 32.1507),
  ("MML-tons/year", Factor.num 32150.7),
  ("ktonne/year", Factor.num 0.0317098),
  ("kg/oper-year", Factor.num 3.52775e-08),
  ("lb/oper-year", Factor.num 1.59891e-08),
  ("Mlb/oper-year", Factor.num 1.59891e-05),
  ("MIMIb/oper-year", Factor.num 0.0159891),
  ("Mtons/oper-year", Factor.num 35.2775),
  ("MMtons/oper-year", Factor.num 35277.5),
  ("ML-tons/oper-year", Factor.num 35.7230),
  ("MML-tons/oper-year", Factor.num 35723.0),
  ("ktonne/oper-year", Factor.num 0.0352775),
  ("gm/sec", Factor.num 0.001),
  ("tons/year", Factor.num 0.0317098),
  ("tonne/day", Factor.num 0.0115741),
  ("tonne/year", Factor.num 0.0317098),
  ("tons/oper-year", Factor.num 0.0352775),
  ("tonne/oper-year", Factor.num 0.0352775),
  ("kmol/sec", Factor.num 1.0),
  ("lbmol/hr", Factor.num 0.000125998),
  ("kmol/hr", Factor.num 0.000277778),
  ("MMscfh", Factor.num 0.000783986),
  ("MMscmh", Factor.num 0.000022414),
  ("mol/sec", Factor.num 0.001),
  ("lbmol/sec", Factor.num 0.453592),
  ("scmh", Factor.num 0.000022414),
  ("bmol/day", Factor.num 1.15741e-05),
  ("kmol/day", Factor.num 1.15741e-05),
  ("MMscfd", Factor.num 0.00000907407),
  ("Mlscfd", Factor.num 0.00000907407),
  ("scfm", Factor.num 0.000000471947),
  ("mol/min", Factor.num 1.66667e-05),
  ("kmol/khr", Factor.num 0.000277778),
  ("kmol/Mhr", Factor.num 0.277778),
  ("mol/hr", Factor.num 2.77778e-07),
  ("Mmol/hr", Factor.num 0.277778),
  ("Mlbmol/hr", Factor.num 0.125998),
  ("lbmol/Mhr", Factor.num 0.125998),
  ("lbmol/MMhr", Factor.num 125.998),
  ("Mscfm", Factor.num 0.000471947),
  ("scfh", Factor.num 7.86579e-08),
  ("scfd", Factor.num 3.27741e-09),
  ("ncmh", Factor.num 0.000022414),
  ("ncmd", Factor.num 9.33917e-07),
  ("ACFM", Factor.num 0.000000471947),
  ("kmol/min", Factor.num 0.0166667),
  ("kmol/week", Factor.num 1.65344e-06),
  ("kmol/month", Factor.num 3.80517e-07),
  ("kmol/year", Factor.num 3.17098e-08),
  ("kmol/oper-year", Factor.num 3.52775e-08),
  ("lbmol/min", Factor.num 0.00755987),
  ("cum/sec", Factor.num 1.0),
  ("m3/s", Factor.num 1.0),
  ("m^3/s", Factor.num 1.0),
  ("cuft/hr", Factor.num 7.86579e-06),
  ("l/min", Factor.num 1.66667e-05),
  ("gal/min", Factor.num 6.30902e-05),
  ("gal/hr", Factor.num 1.05150e-06),
  ("bbl/day", Factor.num 1.84013e-06),
  ("cum/hr", Factor.num 0.000277778),
  ("m3/h", Factor.num 0.000277778),
  ("m^3/h", Factor.num 0.000277778),
  ("cuft/min", Factor.num 0.000471947),
  ("bbl/hr", Factor.num 4.41631e-05),
  ("cuft/sec", Factor.num 0.0283168),
  ("cum/day", Factor.num 1.15741e-05),
  ("cum/year", Factor.num 3.17098e-08),
  ("l/hr", Factor.num 2.77778e-07),
  ("kbbl/day", Factor.num 0.00184013),
  ("MMcuft/hr", Factor.num 7.86579),
  ("MMcuft/day", Factor.num 0.327741),
  ("Mcuft/day", Factor.num 0.000327741),
  ("l/sec", Factor.num 0.001),
  ("l/day", Factor.num 1.15741e-08),
  ("cum/min", Factor.num 0.0166667),
  ("kcum/sec", Factor.num 1000.0),
  ("kcum/hr", Factor.num 0.277778),
  ("kcum/day", Factor.num 0.0115741),
  ("Mcum/sec", Factor.num 1000000.0),
  ("Mcum/hr", Factor.num 277.778),
  ("Mcum/day", Factor.num 11.5741),
  ("cuft/day", Factor.num 3.27741e-07),
  ("Mcuft/min", Factor.num 0.471947),
  ("Mcuft/hr", Factor.num 0.00786579),
  ("Mgal/min", Factor.num 63.0902),
  ("MMgal/min", Factor.num 63090.2),
  ("Mgal/hr", Factor.num 1.05150),
  ("MMgal/hr", Factor.num 1051.50),
  ("Mbbl/hr", Factor.num 44.1631),
  ("MMbbl/hr", Factor.num 44163.1),
  ("Mbbl/day", Factor.num 1.84013),
  ("MMbbl/day", Factor.num 1840.13),
  ("cum/oper-year", Factor.num 3.52775e-08),
  ("cum", Factor.num 1.0),
  ("cuft", Factor.num 0.0283168),
  ("l", Factor.num 0.001),
  ("cuin", Factor.num 1.63871e-05),
  ("gal", Factor.num 0.00378541),
  ("bbl", Factor.num 0.158987),
  ("cc", Factor.num 0.000001),
  ("kcum", Factor.num 1000.0),
  ("Mcum", Factor.num 1000000.0),
  ("Mcuft", Factor.num 28316.8),
  ("MMcuft", Factor.num 28316800.0),
  ("ml", Factor.num 0.000001),
  ("kl", Factor.num 1.0),
  ("MMl", Factor.num 1000000.0),
  ("Mgal", Factor.num 3785.41),
  ("MMgal", Factor.num 3785410.0),
  ("UKgal", Factor.num 0.00454609),
  ("MUKgal", Factor.num 4546.09),
  ("MMUKgal", Factor.num 4546090.0),
  ("Mbbl", Factor.num 158987.0),
  ("MMbbl", Factor.num 158987000.0),
  ("kbbl", Factor.num 158.987),
  ("cuyd", Factor.num 0.764555),
  ("m/sec", Factor.num 1.0),
  ("ft/sec", Factor.num 0.3048),
  ("mile/hr", Factor.num 0.44704),
  ("km/hr", Factor.num 0.277778),
  ("ft/min", Factor.num 0.00508),
  ("mm/day", Factor.num 1.15741e-08),
  ("mm/hr", Factor.num 2.77778e-07),
  ("mm/day30", Factor.num 1.15741e-08),
  ("in/day", Factor.num 2.93995e-07),
  ("kg/cum", Factor.num 1.0),
  ("lb/cuft", Factor.num 16.0185),
  ("gm/cc", Factor.num 1000.0),
  ("lb/gal", Factor.num 119.826),
  ("gm/cum", Factor.num 0.001),
  ("gm/ml", Factor.num 1000.0),
  ("lb/bbl", Factor.num 2.85301),
  ("gm/l", Factor.num 1.0),
  ("mg/l", Factor.num 0.001),
  ("mg/cc", Factor.num 1.0),
  ("mg/cum", Factor.num 0.000001),
  ("kmol/cum", Factor.num 1.0),
  ("lbmol/cuft", Factor.num 16.0185),
  ("mol/cc", Factor.num 1000.0),
  ("lbmol/gal", Factor.num 119.826),
  ("mol/l", Factor.num 1.0),
  ("mmol/cc", Factor.num 1.0),
  ("mmol/l", Factor.num 0.001),
  ("cum/kmol", Factor.num 1.0),
  ("cuft/lbmol", Factor.num 0.0624280),
  ("cc/mol", Factor.num 0.001),
  ("ml/mol", Factor.num 0.001),
  ("bbl/mscf", Factor.num 0.158987),
  ("MW", Factor.num 1000000.0),
  ("J/sec-K", Factor.num 1.0),
  ("Btu/hr-R", Factor.num 0.527527),
  ("cal/sec-K", Factor.num 4.184),
  ("kJ/sec-K", Factor.num 1000.0),
  ("kcal/sec-K", Factor.num 4184.0),
  ("kcal/hr-K", Factor.num 1.16222),
  ("Btu/hr-F", Factor.num 0.527527),
  ("kW/k", Factor.num 1000.0),
  ("mol-fr", Factor.num 1.0),
  ("mass-fr", Factor.num 1.0)
]

/-- Lookup in the conversion-factor registry (Python dict access; the
dict has no duplicate keys, so first-match lookup coincides with it). -/
def conversion_factors (u : String) : Option Factor :=
  (conversion_factors_entries.lookup u)

/-- Gauge-pressure unit list tested by `convert_to_si` in its PRESSURE
branch. -/
def gauge_pressure_units : List String :=
  ["psig", "atmg", "barg", "Pag", "kPag", "MPag", "mbarg"]

/-- Remapping of a gauge unit to its absolute counterpart, as done by
the if/elif chain inside the PRESSURE branch of `convert_to_si`. -/
def remap_gauge_unit (u : String) : String :=
  if u = "psig" then "PsIa"
  else if u = "atmg" then "atm"
  else if u = "barg" then "bar"
  else if u = "Pag" then "pa"
  else if u = "kPag" then "kPa"
  else if u = "MPag" then "MiPa"
  else if u = "mbarg" then "mbar"
  else u

/-- Gauge-to-absolute additive offsets
(`_convert_pressure_gauge_to_absolute`); any other unit is returned
unchanged (already absolute). -/
def convert_pressure_gauge_to_absolute (value : ℚ) (from_unit : String) : ℚ :=
  if from_unit = "psig" then value + 14.696
  else if from_unit = "atmg" then value + 1.0
  else if from_unit = "barg" then value + 1.01325
  else if from_unit = "Pag" then value + 101325.0
  else if from_unit = "kPag" then value + 101.325
  else if from_unit = "MPag" then value + 0.101325
  else if from_unit = "mbarg" then value + 1013.25
  else value

/-- Affine conversion into Kelvin (`_convert_temperature_to_kelvin`). -/
def convert_temperature_to_kelvin (value : ℚ) (from_unit : String) : Except String ℚ :=
  if from_unit = "K" then .ok value
  else if from_unit = "C" then .ok (value + 273.15)
  else if from_unit = "F" then .ok ((value - 32) * 5 / 9 + 273.15)
  else if from_unit = "R" then .ok (value * 5 / 9)
  else .error ("Unsupported temperature unit: " ++ from_unit)

/-- Affine conversion out of Kelvin (`_convert_temperature_from_kelvin`). -/
def convert_temperature_from_kelvin (value_k : ℚ) (to_unit : String) : Except String ℚ :=
  if to_unit = "K" then .ok value_k
  else if to_unit = "C" then .ok (value_k - 273.15)
  else if to_unit = "F" then .ok ((value_k - 273.15) * 9 / 5 + 32)
  else if to_unit = "R" then .ok (value_k * 9 / 5)
  else .error ("Unsupported temperature unit: " ++ to_unit)

/-- SI normalization (`convert_to_si`).  The try/except of the source
re-raises every error with a prefixed message; `wrap` models that.  In
the source the variable `from_unit` is reassigned when a gauge unit is
remapped, so the prefix would show the remapped name, but every
remapped unit has a scalar factor, hence no raise can happen after the
reassignment and using the original `from_unit` in `wrap` is
observationally identical. -/
def convert_to_si (value : ℚ) (from_unit unit_type : String) : Except String (ℚ × String) :=
  let wrap : String → Except String (ℚ × String) := fun e =>
    .error ("Unit conversion error for " ++ from_unit ++ " (" ++ unit_type ++ "): " ++ e)
  match si_base_units unit_type with
  | none => wrap ("Unsupported unit type: " ++ unit_type)
  | some si_unit =>
    if from_unit = si_unit then .ok (value, si_unit)
    else if unit_type = "TEMPERATURE" then
      match convert_temperature_to_kelvin value from_unit with
      | .ok v => .ok (v, si_unit)
      | .error e => wrap e
    else if unit_type = "PRESSURE" then
      let p : ℚ × String :=
        if gauge_pressure_units.contains from_unit then
          (convert_pressure_gauge_to_absolute value from_unit, remap_gauge_unit from_unit)
        else (value, from_unit)
      match conversion_factors p.2 with
      | none => wrap ("Unsupported pressure unit: " ++ p.2)
      | some (.special _) =>
          wrap ("Special conversion required for " ++ p.2 ++ ", but not implemented")
      | some (.num factor) => .ok (p.1 * factor, si_unit)
    else
      match conversion_factors from_unit with
      | none => wrap ("Unsupported unit: " ++ from_unit)
      | some (.special _) =>
          wrap ("Special conversion required for " ++ from_unit ++ ", but not implemented")
      | some (.num factor) => .ok (value * factor, si_unit)

/-- Conversion from SI back to a target unit (`convert_from_si`). -/
def convert_from_si (value_si : ℚ) (to_unit unit_type : String) : Except String ℚ :=
  let wrap : String → Except String ℚ := fun e =>
    .error ("Unit conversion error: " ++ e)
  match si_base_units unit_type with
  | none => wrap ("Unsupported unit type: " ++ unit_type)
  | some si_unit =>
    if to_unit = si_unit then .ok value_si
    else if unit_type = "TEMPERATURE" then
      match convert_temperature_from_kelvin value_si to_unit with
      | .ok v => .ok v
      | .error e => wrap e
    else
      match conversion_factors to_unit with
      | none => wrap ("Unsupported unit: " ++ to_unit)
      | some (.special _) =>
          wrap ("Special conversion required for " ++ to_unit ++ ", but not implemented")
      | some (.num factor) => .ok (value_si / factor)

/-- Convenience wrapper `convert_power_to_kw`: kW no-op, delegation to
`convert_to_si` with rescaling, `none` on internal failure. -/
def convert_power_to_kw (value : ℚ) (from_unit : Option String) : Option ℚ :=
  match from_unit with
  | none => none
  | some u =>
    if u = "kW" ∨ u = "kw" then some value
    else
      match convert_to_si value u "POWER" with
      | .ok (v, _) => some (v / 1000.0)
      | .error _ => none

/-- Convenience wrapper `convert_pressure_to_bar`: bar/bara no-op,
delegation to `convert_to_si` with rescaling, `none` on failure. -/
def convert_pressure_to_bar (value : ℚ) (from_unit : Option String) : Option ℚ :=
  match from_unit with
  | none => none
  | some u =>
    if u = "bar" ∨ u = "bara" then some value
    else
      match convert_to_si value u "PRESSURE" with
      | .ok (v, _) => some (v / 100000.0)
      | .error _ => none

/-- Convenience wrapper `convert_flow_to_m3_s`: m³/s no-op spellings,
delegation to `convert_to_si`, `none` on failure. -/
def convert_flow_to_m3_s (value : ℚ) (from_unit : Option String) : Option ℚ :=
  match from_unit with
  | none => none
  | some u =>
    if u = "m3/s" ∨ u = "m^3/s" ∨ u = "cum/sec" then some value
    else
      match convert_to_si value u "VOLUME-FLOW" with
      | .ok (v, _) => some v
      | .error _ => none

/-- Minimum-size registry `MIN_SIZE_LIMITS`, as the nested
`.get(equipment_type, {}).get(subtype)` lookup used by
`check_minimum_size_limit`. -/
def MIN_SIZE_LIMITS (equipment_type subtype : String) : Option ℚ :=
  if equipment_type = "pump" then
    if subtype = "centrifugal" then some 1.0
    else if subtype = "reciprocating" then some 0.1
    else none
  else if equipment_type = "compressor" then
    if subtype = "centrifugal" then some 450.0
    else if subtype = "axial" then some 450.0
    else if subtype = "reciprocating" then some 450.0
    else none
  else if equipment_type = "turbine" then
    if subtype = "axial" then some 1.0
    else if subtype = "radial" then some 1.0
    else none
  else if equipment_type = "fan" then
    if subtype = "centrifugal_radial" then some 1.0
    else if subtype = "centrifugal_backward" then some 1.0
    else if subtype = "centrifugal_forward" then some 1.0
    else if subtype = "axial" then some 1.0
    else none
  else none

/-- Python `str()` rendering of the float minimums that occur in
`MIN_SIZE_LIMITS` (1.0, 0.1 and 450.0), used in the f-string of
`check_minimum_size_limit`. -/
def float_str (q : ℚ) : String :=
  if q = 1.0 then "1.0"
  else if q = 0.1 then "0.1"
  else if q = 450.0 then "450.0"
  else toString q

/-- Minimum-size check (`check_minimum_size_limit`): open-world pass
when no minimum is registered, otherwise compares against it. -/
def check_minimum_size_limit (equipment_type subtype : String) (size_value : ℚ)
    (size_unit : String) : Bool × String :=
  match MIN_SIZE_LIMITS equipment_type subtype with
  | none => (true, "")
  | some min_limit =>
    if size_value < min_limit then
      (false, "under limit (min: " ++ float_str min_limit ++ " " ++ size_unit ++ ")")
    else (true, "")

/-- Maximum-size registry `MAX_SIZE_LIMITS`, as the nested lookup used
by `get_max_size_limit`. -/
def MAX_SIZE_LIMITS (equipment_type subtype : String) : Option ℚ :=
  if equipment_type = "pump" then
    if subtype = "centrifugal" then some 1000.0
    else if subtype = "reciprocating" then some 1000.0
    else none
  else if equipment_type = "compressor" then
    if subtype = "centrifugal" then some 10000.0
    else if subtype = "axial" then some 10000.0
    else if subtype = "reciprocating" then some 10000.0
    else none
  else if equipment_type = "turbine" then
    if subtype = "axial" then some 10000.0
    else if subtype = "radial" then some 10000.0
    else none
  else if equipment_type = "fan" then
    if subtype = "centrifugal_radial" then some 100.0
    else if subtype = "centrifugal_backward" then some 100.0
    else if subtype = "centrifugal_forward" then some 100.0
    else if subtype = "axial" then some 100.0
    else none
  else none

/-- Maximum-size lookup (`get_max_size_limit`). -/
def get_max_size_limit (equipment_type subtype : String) : Option ℚ :=
  MAX_SIZE_LIMITS equipment_type subtype

/-- CEPCI escalation index registry `CEPCI_BY_YEAR` (2017–2025). -/
def CEPCI_BY_YEAR (year : ℤ) : Option ℚ :=
  if year = 2017 then some 567.5
  else if year = 2018 then some 603.1
  else if year = 2019 then some 607.5
  else if year = 2020 then some 596.2
  else if year = 2021 then some 708.0
  else if year = 2022 then some 778.8
  else if year = 2023 then some 789.6
  else if year = 2024 then some 800.0
  else if year = 2025 then some 810.0
  else none

/-- Escalation-index lookup (`get_cepi_index`):
`CEPCI_BY_YEAR.get(year, 800.0)`. -/
def get_cepi_index (year : ℤ) : ℚ :=
  (CEPCI_BY_YEAR year).getD 800.0

/-- ASCII lowercasing, agreeing with Python `str.lower` on the ASCII
unit symbols this module handles. -/
def ascii_lower_char (c : Char) : Char :=
  if 65 ≤ c.toNat ∧ c.toNat ≤ 90 then Char.ofNat (c.toNat + 32) else c

/-- ASCII lowercasing of a string (Python `str.lower` on ASCII). -/
def ascii_lower (s : String) : String :=
  ⟨s.data.map ascii_lower_char⟩

/-- Legacy gauge set of `is_gauge_pressure_unit`. -/
def gauge_units_legacy : List String :=
  ["barg", "psig", "kpag", "mpag", "mbarg"]

/-- Legacy gauge-unit test (`is_gauge_pressure_unit`): `None` gives
`False`, otherwise membership of the lowercased symbol in the legacy
set. -/
def is_gauge_pressure_unit (unit : Option String) : Bool :=
  match unit with
  | none => false
  | some u => gauge_units_legacy.contains (ascii_lower u)

/-- C2: for every value and each gauge-pressure unit, `convert_to_si` on
PRESSURE first adds the unit's fixed additive offset and then multiplies
by the scalar factor of the corresponding absolute unit, returning the
SI unit "N/sqm"; in particular 0 barg converts to exactly 101325.0 Pa. -/
theorem C2_gauge_pressure_offset_then_scale (v : ℚ) :
    convert_to_si v "psig" "PRESSURE" = .ok ((v + 14.696) * 6894.76, "N/sqm") ∧
    convert_to_si v "atmg" "PRESSURE" = .ok ((v + 1.0) * 101325.0, "N/sqm") ∧
    convert_to_si v "barg" "PRESSURE" = .ok ((v + 1.01325) * 100000.0, "N/sqm") ∧
    convert_to_si v "Pag" "PRESSURE" = .ok ((v + 101325.0) * 1.0, "N/sqm") ∧
    convert_to_si v "kPag" "PRESSURE" = .ok ((v + 101.325) * 1000.0, "N/sqm") ∧
    convert_to_si v "MPag" "PRESSURE" = .ok ((v + 0.101325) * 1000000.0, "N/sqm") ∧
    convert_to_si v "mbarg" "PRESSURE" = .ok ((v + 1013.25) * 100.0, "N/sqm") ∧
    convert_to_si 0 "barg" "PRESSURE" = .ok (101325.0, "N/sqm") := by
  refine ⟨rfl, rfl, rfl, rfl, rfl, rfl, rfl, ?_⟩
  have h : convert_to_si 0 "barg" "PRESSURE" = .ok ((0 + 1.01325) * 100000.0, "N/sqm") := rfl
  have h2 : ((0 : ℚ) + 1.01325) * 100000.0 = 101325.0 := by norm_num
  rw [h, h2]

/-- C3: `convert_to_si` on TEMPERATURE applies the exact affine
formulas into Kelvin, and `convert_from_si` applies the exact inverse
affine formulas out of Kelvin. -/
theorem C3_temperature_affine_formulas (v : ℚ) :
    convert_to_si v "C" "TEMPERATURE" = .ok (v + 273.15, "K") ∧
    convert_to_si v "F" "TEMPERATURE" = .ok ((v - 32) * 5 / 9 + 273.15, "K") ∧
    convert_to_si v "R" "TEMPERATURE" = .ok (v * 5 / 9, "K") ∧
    convert_to_si v "K" "TEMPERATURE" = .ok (v, "K") ∧
    convert_from_si v "C" "TEMPERATURE" = .ok (v - 273.15) ∧
    convert_from_si v "F" "TEMPERATURE" = .ok ((v - 273.15) * 9 / 5 + 32) ∧
    convert_from_si v "R" "TEMPERATURE" = .ok (v * 9 / 5) ∧
    convert_from_si v "K" "TEMPERATURE" = .ok v :=
  ⟨rfl, rfl, rfl, rfl, rfl, rfl, rfl, rfl⟩

/-- C4: for every quantity type of the enumeration, converting from (or
to) that type's own SI unit short-circuits to the identity, with no
factor applied. -/
theorem C4_identity_short_circuit (v : ℚ) (Q u : String)
    (h : si_base_units Q = some u) :
    convert_to_si v u Q = .ok (v, u) ∧ convert_from_si v u Q = .ok v := by
  constructor
  · unfold convert_to_si
    rw [h]
    simp
  · unfold convert_from_si
    rw [h]
    simp

/-- Witness for C4 at the POWER quantity type and its SI unit Watt. -/
theorem C4_identity_short_circuit_witness :
    convert_to_si 7 "Watt" "POWER" = .ok (7, "Watt") ∧
    convert_from_si 7 "Watt" "POWER" = .ok 7 :=
  C4_identity_short_circuit 7 "POWER" "Watt" rfl

/-- C10: `is_gauge_pressure_unit` is exactly lowercase membership in
the legacy five-element set, returns false on `none`, and returns false
on "atmg" and "Pag" even though both are in the gauge list that
`convert_to_si` treats as gauge-pressure units. -/
theorem C10_legacy_gauge_unit_test (u : String) :
    is_gauge_pressure_unit none = false ∧
    (is_gauge_pressure_unit (some u) = true ↔
      ascii_lower u ∈ (["barg", "psig", "kpag", "mpag", "mbarg"] : List String)) ∧
    is_gauge_pressure_unit (some "atmg") = false ∧
    is_gauge_pressure_unit (some "Pag") = false ∧
    "atmg" ∈ gauge_pressure_units ∧ "Pag" ∈ gauge_pressure_units := by
  refine ⟨rfl, ?_, by decide, by decide, by decide, by decide⟩
  simp [is_gauge_pressure_unit, gauge_units_legacy]

/-- Counterexample to C1 as stated: 2030 lies outside the registered
range, the latest defined value is the 2025 projection 810.0, yet the
lookup returns the fixed default 800.0 (the 2024 projection). -/
theorem C1_cepci_fallback_counterexample :
    CEPCI_BY_YEAR 2030 = none ∧
    CEPCI_BY_YEAR 2025 = some 810.0 ∧
    get_cepi_index 2030 = 800.0 ∧
    get_cepi_index 2030 ≠ 810.0 := by
  refine ⟨rfl, rfl, rfl, ?_⟩
  have h : get_cepi_index 2030 = 800.0 := rfl
  rw [h]
  norm_num

/-- C1 amended: years registered in `CEPCI_BY_YEAR` (exactly 2017–2025)
return their registered index; every other integer year returns the
fixed default 800.0 (the 2024 projected value); the lookup is total,
never failing. -/
theorem C1_cepci_lookup_amended (y : ℤ) :
    (∀ q : ℚ, CEPCI_BY_YEAR y = some q → get_cepi_index y = q) ∧
    (CEPCI_BY_YEAR y = none → get_cepi_index y = 800.0) ∧
    (2017 ≤ y → y ≤ 2025 → (CEPCI_BY_YEAR y).isSome = true) := by
  refine ⟨?_, ?_, ?_⟩
  · intro q h
    simp [get_cepi_index, h]
  · intro h
    simp [get_cepi_index, h]
  · intro h1 h2
    interval_cases y <;> rfl

/-- Witness for C1 amended: a registered year, an out-of-range year and
a year inside the registered range. -/
theorem C1_cepci_lookup_amended_witness :
    get_cepi_index 2018 = 603.1 ∧
    get_cepi_index 2030 = 800.0 ∧
    (CEPCI_BY_YEAR 2025).isSome = true :=
  ⟨(C1_cepci_lookup_amended 2018).1 603.1 rfl,
   (C1_cepci_lookup_amended 2030).2.1 rfl,
   (C1_cepci_lookup_amended 2025).2.2 (by norm_num) (by norm_num)⟩

/-- C6: reverse conversion from SI into any gauge-pressure unit fails
explicitly with an error rather than returning a value. -/
theorem C6_gauge_reverse_unsupported (v : ℚ) (g : String)
    (h : g ∈ gauge_pressure_units) :
    ∃ e, convert_from_si v g "PRESSURE" = .error e := by
  fin_cases h <;> exact ⟨_, rfl⟩

/-- Witness for C6 at one atmosphere of SI pressure and the barg unit. -/
theorem C6_gauge_reverse_unsupported_witness :
    ∃ e, convert_from_si 101325 "barg" "PRESSURE" = .error e :=
  C6_gauge_reverse_unsupported 101325 "barg" (by decide)

/-- C8: the minimum-size check passes with an empty message when no
minimum is registered (open world) or when the size reaches the
minimum, fails with the documented message otherwise, and the
maximum-size lookup returns the registered maximum or `none`; both
lookups yield `none` for unregistered equipment types. -/
theorem C8_size_limit_checks (et st u : String) (v : ℚ) :
    (MIN_SIZE_LIMITS et st = none → check_minimum_size_limit et st v u = (true, "")) ∧
    (∀ m : ℚ, MIN_SIZE_LIMITS et st = some m → m ≤ v →
      check_minimum_size_limit et st v u = (true, "")) ∧
    (∀ m : ℚ, MIN_SIZE_LIMITS et st = some m → v < m →
      check_minimum_size_limit et st v u =
        (false, "under limit (min: " ++ float_str m ++ " " ++ u ++ ")")) ∧
    (∀ q : ℚ, MAX_SIZE_LIMITS et st = some q → get_max_size_limit et st = some q) ∧
    (MAX_SIZE_LIMITS et st = none → get_max_size_limit et st = none) ∧
    (et ∉ (["pump", "compressor", "turbine", "fan"] : List String) →
      MIN_SIZE_LIMITS et st = none ∧ get_max_size_limit et st = none) := by
  refine ⟨?_, ?_, ?_, fun q h => h, fun h => h, ?_⟩
  · intro h
    simp [check_minimum_size_limit, h]
  · intro m h hm
    simp [check_minimum_size_limit, h, not_lt.mpr hm]
  · intro m h hm
    simp [check_minimum_size_limit, h, hm]
  · intro hmem
    simp only [List.mem_cons, List.not_mem_nil, or_false, not_or] at hmem
    obtain ⟨h1, h2, h3, h4⟩ := hmem
    constructor
    · simp [MIN_SIZE_LIMITS, h1, h2, h3, h4]
    · simp [get_max_size_limit, MAX_SIZE_LIMITS, h1, h2, h3, h4]

/-- Witness for C8: an unregistered pair passes with any size, an
undersized centrifugal pump fails with the documented message, and the
maximum lookup answers for registered and unregistered pairs. -/
theorem C8_size_limit_checks_witness :
    check_minimum_size_limit "unregistered_type" "x" (-100) "kW" = (true, "") ∧
    check_minimum_size_limit "pump" "centrifugal" 0.5 "kW" =
      (false, "under limit (min: 1.0 kW)") ∧
    get_max_size_limit "compressor" "axial" = some 10000.0 ∧
    get_max_size_limit "unregistered_type" "x" = none := by
  have h1 := (C8_size_limit_checks "unregistered_type" "x" "kW" (-100)).1 rfl
  have h2 := (C8_size_limit_checks "pump" "centrifugal" "kW" 0.5).2.2.1 1.0 rfl (by norm_num)
  have h3 := (C8_size_limit_checks "compressor" "axial" "kW" 0).2.2.2.1 10000.0 rfl
  have h4 := (C8_size_limit_checks "unregistered_type" "x" "kW" 0).2.2.2.2.1 rfl
  have hf : float_str 1.0 = "1.0" := by
    unfold float_str
    rw [if_pos rfl]
  rw [hf] at h2
  exact ⟨h1, h2, h3, h4⟩

/-- C9: each convenience wrapper is the identity on its
already-at-target unit spellings, returns `none` on a `none` unit,
delegates to `convert_to_si` and rescales otherwise, and on an internal
conversion failure returns `none` instead of propagating the error. -/
theorem C9_convenience_wrappers (v : ℚ) (u : String) :
    convert_power_to_kw v none = none ∧
    convert_pressure_to_bar v none = none ∧
    convert_flow_to_m3_s v none = none ∧
    convert_power_to_kw v (some "kW") = some v ∧
    convert_power_to_kw v (some "kw") = some v ∧
    convert_pressure_to_bar v (some "bar") = some v ∧
    convert_pressure_to_bar v (some "bara") = some v ∧
    convert_flow_to_m3_s v (some "m3/s") = some v ∧
    convert_flow_to_m3_s v (some "m^3/s") = some v ∧
    convert_flow_to_m3_s v (some "cum/sec") = some v ∧
    (¬(u = "kW" ∨ u = "kw") →
      (∀ w s, convert_to_si v u "POWER" = .ok (w, s) →
        convert_power_to_kw v (some u) = some (w / 1000.0)) ∧
      (∀ e, convert_to_si v u "POWER" = .error e →
        convert_power_to_kw v (some u) = none)) ∧
    (¬(u = "bar" ∨ u = "bara") →
      (∀ w s, convert_to_si v u "PRESSURE" = .ok (w, s) →
        convert_pressure_to_bar v (some u) = some (w / 100000.0)) ∧
      (∀ e, convert_to_si v u "PRESSURE" = .error e →
        convert_pressure_to_bar v (some u) = none)) ∧
    (¬(u = "m3/s" ∨ u = "m^3/s" ∨ u = "cum/sec") →
      (∀ w s, convert_to_si v u "VOLUME-FLOW" = .ok (w, s) →
        convert_flow_to_m3_s v (some u) = some w) ∧
      (∀ e, convert_to_si v u "VOLUME-FLOW" = .error e →
        convert_flow_to_m3_s v (some u) = none)) := by
  refine ⟨rfl, rfl, rfl, rfl, rfl, rfl, rfl, rfl, rfl, rfl, ?_, ?_, ?_⟩
  · intro h
    constructor
    · intro w s hok
      simp [convert_power_to_kw, h, hok]
    · intro e herr
      simp [convert_power_to_kw, h, herr]
  · intro h
    constructor
    · intro w s hok
      simp [convert_pressure_to_bar, h, hok]
    · intro e herr
      simp [convert_pressure_to_bar, h, herr]
  · intro h
    constructor
    · intro w s hok
      simp [convert_flow_to_m3_s, h, hok]
    · intro e herr
      simp [convert_flow_to_m3_s, h, herr]

/-- Witness for C9: a bar no-op, a successful atm delegation and a
failing unknown unit. -/
theorem C9_convenience_wrappers_witness :
    convert_pressure_to_bar 5 (some "bar") = some 5 ∧
    convert_pressure_to_bar 2 (some "atm") = some 2.0265 ∧
    convert_pressure_to_bar 1 (some "nonexistent") = none := by
  have h1 := (C9_convenience_wrappers 5 "atm").2.2.2.2.2.2.1
  have h2 := ((C9_convenience_wrappers 2 "atm").2.2.2.2.2.2.2.2.2.2.2.1 (by decide)).1
    (2 * 101325.0) "N/sqm" rfl
  have h3 := ((C9_convenience_wrappers 1 "nonexistent").2.2.2.2.2.2.2.2.2.2.2.1 (by decide)).2
    _ rfl
  refine ⟨h1, ?_, h3⟩
  rw [h2]
  have : (2 : ℚ) * 101325.0 / 100000.0 = 2.0265 := by norm_num
  rw [this]

/-- C5: for any quantity type other than TEMPERATURE and any of its
units that is neither the gauge-pressure list nor a special-case entry
(it has a positive scalar factor in the registry), converting to SI and
back returns the original value exactly over exact arithmetic. -/
theorem C5_round_trip (v f : ℚ) (Q U si : String)
    (hsi : si_base_units Q = some si)
    (hT : Q ≠ "TEMPERATURE")
    (hg : gauge_pressure_units.contains U = false)
    (hf : conversion_factors U = some (Factor.num f))
    (hpos : 0 < f) :
    ∃ w, convert_to_si v U Q = .ok (w, si) ∧ convert_from_si w U Q = .ok v := by
  by_cases hU : U = si
  · subst hU
    refine ⟨v, ?_, ?_⟩
    · unfold convert_to_si
      rw [hsi]
      simp
    · unfold convert_from_si
      rw [hsi]
      simp
  · refine ⟨v * f, ?_, ?_⟩
    · unfold convert_to_si
      rw [hsi]
      by_cases hP : Q = "PRESSURE"
      · subst hP
        have hg2 : U ∉ gauge_pressure_units := by simpa using hg
        simp [hU, hg2, hf]
      · simp [hU, hT, hP, hf]
    · unfold convert_from_si
      rw [hsi]
      simp [hU, hT, hf]
      exact mul_div_cancel_right₀ v (ne_of_gt hpos)

/-- Witness for C5 at 3 kW of POWER. -/
theorem C5_round_trip_witness :
    ∃ w, convert_to_si 3 "kW" "POWER" = .ok (w, "Watt") ∧
      convert_from_si w "kW" "POWER" = .ok 3 :=
  C5_round_trip 3 1000.0 "POWER" "kW" "Watt" rfl (by decide) (by decide) rfl (by norm_num)

/-- Unit recognized in the context consulted by `convert_to_si` for a
known quantity type: the affine table for TEMPERATURE, the gauge list
or the scalar registry for PRESSURE, the scalar registry otherwise. -/
def unit_known_in_context (u Q : String) : Bool :=
  if Q = "TEMPERATURE" then (["K", "C", "F", "R"] : List String).contains u
  else if Q = "PRESSURE" then
    gauge_pressure_units.contains u || (conversion_factors u).isSome
  else (conversion_factors u).isSome

/-- C7: `convert_to_si` fails with an error whenever the quantity type
is not in the enumeration, and whenever the quantity type is known but
the unit symbol is absent from the conversion registry consulted for
that context; no default value is ever substituted. -/
theorem C7_unknown_inputs_fail (v : ℚ) (u Q : String) :
    (si_base_units Q = none → ∃ e, convert_to_si v u Q = .error e) ∧
    (∀ si, si_base_units Q = some si → u ≠ si → unit_known_in_context u Q = false →
      ∃ e, convert_to_si v u Q = .error e) := by
  constructor
  · intro h
    refine ⟨"Unit conversion error for " ++ u ++ " (" ++ Q ++ "): " ++
      ("Unsupported unit type: " ++ Q), ?_⟩
    unfold convert_to_si
    rw [h]
  · intro si hsi hne hunk
    by_cases hT : Q = "TEMPERATURE"
    · subst hT
      have hK : u ≠ "K" := by rintro rfl; exact absurd hunk (by decide)
      have hC : u ≠ "C" := by rintro rfl; exact absurd hunk (by decide)
      have hF : u ≠ "F" := by rintro rfl; exact absurd hunk (by decide)
      have hR : u ≠ "R" := by rintro rfl; exact absurd hunk (by decide)
      have htemp : convert_temperature_to_kelvin v u =
          .error ("Unsupported temperature unit: " ++ u) := by
        unfold convert_temperature_to_kelvin
        rw [if_neg hK, if_neg hC, if_neg hF, if_neg hR]
      refine ⟨"Unit conversion error for " ++ u ++ " (" ++ "TEMPERATURE" ++ "): " ++
        ("Unsupported temperature unit: " ++ u), ?_⟩
      unfold convert_to_si
      rw [hsi]
      simp [hne, htemp]
    · by_cases hP : Q = "PRESSURE"
      · subst hP
        have h2 : gauge_pressure_units.contains u = false ∧
            (conversion_factors u).isSome = false := by
          simpa [unit_known_in_context] using hunk
        have hnone : conversion_factors u = none := by
          cases hx : conversion_factors u with
          | none => rfl
          | some a =>
            exfalso
            rw [hx] at h2
            exact absurd h2.2 (by simp)
        refine ⟨"Unit conversion error for " ++ u ++ " (" ++ "PRESSURE" ++ "): " ++
          ("Unsupported pressure unit: " ++ u), ?_⟩
        have hg2 : u ∉ gauge_pressure_units := by simpa using h2.1
        unfold convert_to_si
        rw [hsi]
        simp [hne, hg2, hnone]
      · have h2 : (conversion_factors u).isSome = false := by
          simpa [unit_known_in_context, hT, hP] using hunk
        have hnone : conversion_factors u = none := by
          cases hx : conversion_factors u with
          | none => rfl
          | some a =>
            exfalso
            rw [hx] at h2
            exact absurd h2 (by simp)
        refine ⟨"Unit conversion error for " ++ u ++ " (" ++ Q ++ "): " ++
          ("Unsupported unit: " ++ u), ?_⟩
        unfold convert_to_si
        rw [hsi]
        simp [hne, hT, hP, hnone]

/-- Witness for C7: an unknown quantity type and an unknown POWER
unit. -/
theorem C7_unknown_inputs_fail_witness :
    (∃ e, convert_to_si 1 "kW" "NOT_A_TYPE" = .error e) ∧
    (∃ e, convert_to_si 1 "nonexistent" "POWER" = .error e) :=
  ⟨(C7_unknown_inputs_fail 1 "kW" "NOT_A_TYPE").1 rfl,
   (C7_unknown_inputs_fail 1 "nonexistent" "POWER").2 "Watt" rfl (by decide) rfl⟩
